import Mathlib

/-!
Shallow embedding of `passwd.tproj/od_passwd.c` (apple-opensource/system_cmds).

The program under verification is the single function `od_passwd` together
with its static helpers `is_singleuser` and `load_DirectoryServicesLocal`.
External effects (OpenDirectory API calls, `sysctlbyname`, `getpass`,
`fork`/`exec` of launchctl) are modelled by an environment `Env` that fixes
the result of every external call; `run` then mirrors the C control flow and
records the observable events of the execution in a `Trace`.

Conventions of the embedding:
* A `CFErrorRef *` out-parameter follows the CoreFoundation convention: it is
  set by a failing call and left untouched by a succeeding one.  The C code
  holds a single `error` variable across all calls, so the embedding threads
  one boolean `errSet` through the run.
* A failing creation call (`ODSessionCreate`, `ODNodeCreateWithName`,
  `ODNodeCreateWithNodeType`) sets the error; `ODNodeCopyRecord` returning no
  record may leave the error unset (record simply not found).
* `CFStringCreateWithCString` and `CFDictionaryCreate` are modelled as always
  succeeding (their only failure mode is allocation failure).
* Calling `CFStringCompareWithOptions` on a NULL string, or `CFArrayCreate`
  with a NULL element under `kCFTypeArrayCallBacks`, is undefined behaviour;
  the embedding reports it as the `crashed` outcome.  The `||` of line 223
  short-circuits, so the comparison (and hence the NULL dereference) is only
  reached when the caller is root.
-/

namespace ODPasswd

/-- Error code `kODErrorSessionDaemonNotRunning` of the OpenDirectory
framework, the only error code `od_passwd` inspects (line 163). -/
def kODErrorSessionDaemonNotRunning : Int := 1002

/-- Embedding of `is_singleuser` (od_passwd.c lines 77-86): query the kernel
flag `kern.singleuser`; `sysctlValue = none` models a failing
`sysctlbyname` call, in which case the function returns 0, otherwise it
returns the queried value. -/
def is_singleuser (sysctlValue : Option Nat) : Nat :=
  match sysctlValue with
  | none => 0
  | some v => v

/-- Environment of one invocation of `od_passwd`: its three arguments, the
caller's real uid, and the result of every external call the code can make.
`none` in `sess1`/`sess2` means the corresponding `ODSessionCreate`
succeeded; `some code` means it failed with an error of that code.
`loopResps` is the stream of `getpass` results consumed by the new-password
loop (an exhausted stream behaves like `getpass` returning NULL). -/
structure Env where
  uname : Option String
  locn : Option String
  aname : Option String
  uid : Nat
  sess1 : Option Int
  sysctl : Option Nat
  daemonLoadOk : Bool
  sess2 : Option Int
  nodeOk : Bool
  recFound : Bool
  metaValues : Option (List String)
  oldResp : Option String
  loopResps : List (Option String)
  setCredErr : Bool
  changePassErr : Bool
deriving Repr

/-- How the modelled execution of `od_passwd` ends: a `return code` from the
function, a direct `exit(status)` of the process, or undefined behaviour
(a CoreFoundation call on a NULL object). -/
inductive Outcome where
  | returned (code : Int)
  | exited (status : Nat)
  | crashed
deriving Repr, DecidableEq

/-- Result of the new-password collection loop (od_passwd.c lines 239-260).
`result = none` means the loop ended in the `Password unchanged.` branch
(`exit(0)`); `result = some p` means the confirmation matched `p`.
`buffers` records, in order, each `getpass` buffer that was converted into a
`CFString`, paired with whether the code `memset` it to zero afterwards. -/
structure LoopRes where
  result : Option String
  mismatchMsgs : Nat
  newPrompts : Nat
  retypePrompts : Nat
  buffers : List (String × Bool)
deriving Repr, DecidableEq

/-- Loop outcome of the empty/EOF new-password branch (lines 244-247):
one `New password:` prompt, then `printf` + `exit(0)`. -/
def unchangedRes : LoopRes :=
  { result := none, mismatchMsgs := 0, newPrompts := 1, retypePrompts := 0, buffers := [] }

/-- Loop outcome of a matching confirmation (lines 255-257): the new-password
buffer was zeroed after conversion (line 243), the retype buffer was not. -/
def matchedRes (s t : String) : LoopRes :=
  { result := some s, mismatchMsgs := 0, newPrompts := 1, retypePrompts := 1,
    buffers := [(s, true), (t, false)] }

/-- One loop round whose retype prompt got EOF (`getpass` returned NULL,
line 250): no message is printed and the loop restarts. -/
def contCons (s : String) (r : LoopRes) : LoopRes :=
  { result := r.result, mismatchMsgs := r.mismatchMsgs, newPrompts := r.newPrompts + 1,
    retypePrompts := r.retypePrompts + 1, buffers := (s, true) :: r.buffers }

/-- One loop round with a non-matching confirmation (lines 252-254): the
mismatch message is printed and the loop restarts; the retype buffer is
converted but never zeroed. -/
def mismatchCons (s t : String) (r : LoopRes) : LoopRes :=
  { result := r.result, mismatchMsgs := r.mismatchMsgs + 1, newPrompts := r.newPrompts + 1,
    retypePrompts := r.retypePrompts + 1, buffers := (s, true) :: (t, false) :: r.buffers }

/-- Embedding of the `for(;;)` collection loop (od_passwd.c lines 239-260)
over the stream of `getpass` responses. Each iteration consumes one response
for `New password:` and, unless that one was empty or NULL, one for
`Retype new password:`. -/
def collectLoop : List (Option String) → LoopRes
  | [] => unchangedRes
  | none :: _ => unchangedRes
  | some s :: rest =>
    if s = "" then unchangedRes
    else
      match rest with
      | [] => contCons s (collectLoop [])
      | none :: rest2 => contCons s (collectLoop rest2)
      | some t :: rest2 =>
        if t = s then matchedRes s t
        else mismatchCons s t (collectLoop rest2)

/-- Result of the session-bootstrap phase (od_passwd.c lines 162-183):
either the early `show_error(error); return -1;` branch (line 179-182,
recording whether the daemon load was attempted first), or fall-through with
the session handle state, the location value, whether the shared `error`
variable is set, and whether a daemon load was attempted. -/
inductive SessResult where
  | abort (daemonAttempted : Bool)
  | go (sess : Bool) (location : Option String) (errSet : Bool) (daemonAttempted : Bool)
deriving Repr, DecidableEq

/-- Embedding of the session bootstrap (od_passwd.c lines 162-183).
On the single-user fallback path the first failure leaves the `error`
variable set; a succeeding retry does not clear it (CF out-error
convention), so `errSet` is `true` on that path even when the retry
succeeds. The location is defaulted to `/Local/Default` on that path when
none was supplied (lines 176-178), even if the retry failed. -/
def sessionPhase (env : Env) : SessResult :=
  match env.sess1 with
  | none => .go true env.locn false false
  | some code =>
    if code = kODErrorSessionDaemonNotRunning then
      if is_singleuser env.sysctl = 0 then .abort false
      else if env.daemonLoadOk then
        .go env.sess2.isNone (some (env.locn.getD "/Local/Default")) true true
      else .abort true
    else .go false env.locn true false

/-- Observable trace of one modelled execution of `od_passwd`. -/
structure Trace where
  outcome : Outcome
  errorShown : Bool
  daemonLoadAttempted : Bool
  nodeAttempted : Bool
  recAttempted : Bool
  printedUnchanged : Bool
  mismatchMsgs : Nat
  oldPromptCount : Nat
  newPrompts : Nat
  retypePrompts : Nat
  policyLocation : Option (Option String)
  needsAuth : Option Bool
  setCredCalls : List (String × String × String × Option String)
  changePassCalls : List (Option String × String)
  buffers : List (String × Bool)
deriving Repr, DecidableEq

/-- Trace with the given outcome and no recorded events. -/
def Trace.base (o : Outcome) : Trace :=
  { outcome := o, errorShown := false, daemonLoadAttempted := false, nodeAttempted := false,
    recAttempted := false, printedUnchanged := false, mismatchMsgs := 0, oldPromptCount := 0,
    newPrompts := 0, retypePrompts := 0, policyLocation := none, needsAuth := none,
    setCredCalls := [], changePassCalls := [], buffers := [] }

/-- Embedding of the first-seven-characters comparison against `/Local/`
(od_passwd.c line 223, `CFStringCompareWithOptions` over `CFRangeMake(0,7)`). -/
def localPrefixCheck (s : String) : Bool :=
  decide (s.take 7 = "/Local/")

/-- Embedding of od_passwd.c lines 225-313 from the policy decision onward:
old-password prompt (issued exactly when `needs_auth` holds), collection
loop, and commit dispatch. `polLoc` is the location value current at the
policy check, recorded in the trace; `errSet` records whether the shared
`error` variable is already set, `da` whether a daemon load was attempted. -/
def collectCommit (env : Env) (uname aname : String) (needs_auth : Bool)
    (polLoc : Option String) (errSet da : Bool) : Trace :=
  let oldpass : Option String := if needs_auth then env.oldResp else none
  let oldBufs : List (String × Bool) :=
    if needs_auth then (match env.oldResp with | some p => [(p, true)] | none => []) else []
  let oldPrompts : Nat := if needs_auth then 1 else 0
  let lr := collectLoop env.loopResps
  let tBase : Trace :=
    { Trace.base (.returned 0) with
      daemonLoadAttempted := da
      nodeAttempted := true
      recAttempted := true
      policyLocation := some polLoc
      needsAuth := some needs_auth
      oldPromptCount := oldPrompts
      newPrompts := lr.newPrompts
      retypePrompts := lr.retypePrompts
      mismatchMsgs := lr.mismatchMsgs
      buffers := oldBufs ++ lr.buffers }
  match lr.result with
  | none =>
    { tBase with
      outcome := .exited 0
      printedUnchanged := true }
  | some newpass =>
    if needs_auth then
      match oldpass with
      | none => { tBase with outcome := .crashed }
      | some op =>
        let errFinal := errSet || env.setCredErr
        { tBase with
          outcome := if errFinal then .exited 1 else .returned 0
          errorShown := errFinal
          setCredCalls := [(uname, newpass, aname, some op)] }
    else
      let errFinal := errSet || env.changePassErr
      { tBase with
        outcome := if errFinal then .exited 1 else .returned 0
        errorShown := errFinal
        changePassCalls := [(oldpass, newpass)] }

/-- Embedding of od_passwd.c lines 218-313: trust policy, password
collection and commit, given the `location` value current at line 218.
The `||` at line 223 short-circuits in C: a non-root caller
(`!master_mode` already true) never evaluates the CF comparison, so a
missing (NULL) location is dereferenced only when the caller is root;
a non-root caller proceeds with the flag set. -/
def policyPhase (env : Env) (uname aname : String) (master : Bool)
    (location : Option String) (errSet da : Bool) : Trace :=
  match location with
  | none =>
    if master then
      { Trace.base .crashed with
        daemonLoadAttempted := da
        nodeAttempted := true
        recAttempted := true
        policyLocation := some none }
    else
      collectCommit env uname aname true none errSet da
  | some loc =>
    collectCommit env uname aname (!master || !localPrefixCheck loc) (some loc) errSet da

/-- Embedding of od_passwd.c lines 211-313: the canonical-location read-back
of lines 214-216 (`ODRecordCopyValues` of `kODAttributeTypeMetaNodeLocation`,
preferred over `location0` when it yields at least one value) followed by
the policy, collection and commit steps. -/
def commitPhase (env : Env) (uname aname : String) (master : Bool)
    (location0 : Option String) (errSet da : Bool) : Trace :=
  policyPhase env uname aname master
    (match env.metaValues with
     | some (v :: _) => some v
     | _ => location0) errSet da

/-- Embedding of `od_passwd` (od_passwd.c lines 118-314) as a function from
the environment to the observable trace. -/
def run (env : Env) : Trace :=
  match env.uname with
  | none => Trace.base (.returned (-1))
  | some u =>
    match sessionPhase env with
    | .abort da =>
      { Trace.base (.returned (-1)) with
        errorShown := true
        daemonLoadAttempted := da }
    | .go sess loc errSet da =>
      let nodeCreated := sess && env.nodeOk
      let recFound := nodeCreated && env.recFound
      if recFound then
        commitPhase env u (env.aname.getD u) (decide (env.uid = 0)) loc errSet da
      else
        { Trace.base (.returned (-1)) with
          errorShown := errSet || !nodeCreated
          daemonLoadAttempted := da
          nodeAttempted := true
          recAttempted := nodeCreated }

/-- States that the single-user fallback branch (od_passwd.c line 167, both
conjuncts true) was taken. -/
def tookSingleUserPath (env : Env) : Bool :=
  match env.sess1 with
  | some code =>
    decide (code = kODErrorSessionDaemonNotRunning)
      && !(is_singleuser env.sysctl == 0) && env.daemonLoadOk
  | none => false

/-- The originally supplied location, after the single-user defaulting of
od_passwd.c lines 176-178 (spec 4.1: default the target node location to the
local default node). -/
def suppliedOrDefault (env : Env) : Option String :=
  match env.locn with
  | some l => some l
  | none => if tookSingleUserPath env then some "/Local/Default" else none

/-- The location used for the trust check, in the words of the claim: the
record's first canonical node-location value when that attribute has at
least one value, otherwise the originally supplied (or single-user
defaulted) location. -/
def usedLocation (env : Env) : Option String :=
  match env.metaValues with
  | some (v :: _) => some v
  | _ => suppliedOrDefault env

/-- Whether the session handle is live after the bootstrap phase. -/
def sessionGo (env : Env) : Bool :=
  match sessionPhase env with
  | .go s _ _ _ => s
  | .abort _ => false

/-- The execution reaches the policy step (line 223): a username was given,
the bootstrap fell through with a live session, the node was created and the
record was found. -/
def reachesPolicy (env : Env) : Bool :=
  env.uname.isSome && sessionGo env && env.nodeOk && env.recFound

/-- The execution reaches the password-collection loop: the policy step is
reached and the location used there is present. -/
def reachesCollect (env : Env) : Bool :=
  reachesPolicy env && (usedLocation env).isSome

/-- The re-authentication condition in the words of the claim: the caller's
real uid is not root, or the location does not begin with `/Local/`
(first seven characters). -/
def specNeedsAuth (uid : Nat) (loc : String) : Bool :=
  decide (uid ≠ 0) || decide (loc.take 7 ≠ "/Local/")

/-- The record carried at least one canonical node-location value. -/
def hasCanonical (env : Env) : Bool :=
  match env.metaValues with
  | some (_ :: _) => true
  | _ => false

/-- The re-authentication condition evaluated on the environment (meaningful
when the execution reaches the policy step with a present location). -/
def needsAuthOf (env : Env) : Bool :=
  match usedLocation env with
  | some loc => specNeedsAuth env.uid loc
  | none => true

/-- Whether the commit operation selected by the policy fails in this
environment. -/
def commitErrFlag (env : Env) : Bool :=
  if needsAuthOf env then env.setCredErr else env.changePassErr

/-- On the re-authentication path the old-password `getpass` call must have
produced a buffer; otherwise the commit builds a CF array with a NULL
element (undefined behaviour). -/
def oldOkFor (env : Env) : Bool :=
  if needsAuthOf env then env.oldResp.isSome else true

/-- Response prefixes on which the collection loop keeps looping: each round
is either a nonempty new password whose present confirmation differs, or a
nonempty new password whose confirmation prompt got EOF. -/
inductive LoopsOn : List (Option String) → Prop where
  | nil : LoopsOn []
  | mismatchRound (s t : String) (rest : List (Option String)) :
      s ≠ "" → t ≠ s → LoopsOn rest → LoopsOn (some s :: some t :: rest)
  | retypeEOFRound (s : String) (rest : List (Option String)) :
      s ≠ "" → LoopsOn rest → LoopsOn (some s :: none :: rest)

/-- A stream of `n` mismatching rounds. -/
def badRounds : Nat → List (Option String)
  | 0 => []
  | n + 1 => some "a" :: some "b" :: badRounds n

/-- The buffers recorded by `n` mismatching rounds followed by a matching
round. -/
def badBufs : Nat → List (String × Bool)
  | 0 => [("a", true), ("a", false)]
  | n + 1 => ("a", true) :: ("b", false) :: badBufs n

/-- Baseline environment used by the concrete instances below: root changes
the password of the local user `alice`; every external call succeeds and the
record resolves into `/Local/Default`. -/
def envBase : Env :=
  { uname := some "alice", locn := none, aname := none, uid := 0,
    sess1 := none, sysctl := some 0, daemonLoadOk := false, sess2 := none,
    nodeOk := true, recFound := true, metaValues := some ["/Local/Default"],
    oldResp := some "old", loopResps := [some "npw", some "npw"],
    setCredErr := false, changePassErr := false }

/-- Single-user fallback succeeds (daemon-not-running, single-user flag set,
daemon load and session retry succeed); the commit itself succeeds. -/
def envStale : Env :=
  { envBase with sess1 := some 1002, sysctl := some 1, daemonLoadOk := true }

/-- Single-user fallback where the retried session creation fails again. -/
def envRetryFail : Env :=
  { envStale with sess2 := some 1002 }

/-- Daemon not running while the host is not in single-user mode. -/
def envNoSingle : Env :=
  { envBase with sess1 := some 1002 }

/-- Session creation fails with a directory-service error other than
daemon-not-running. -/
def envOtherErr : Env :=
  { envBase with sess1 := some 777 }

/-- No username supplied. -/
def envNoUser : Env :=
  { envBase with uname := none }

/-- Non-root caller changing their own password. -/
def envNonRoot : Env :=
  { envBase with uid := 501 }

/-- No location supplied and the canonical node-location attribute of the
record has no values. -/
def envNoLoc : Env :=
  { envBase with metaValues := some [] }

/-- Daemon not running and the `kern.singleuser` sysctl query itself fails. -/
def envSysctlFail : Env :=
  { envBase with sess1 := some 1002, sysctl := none }

/-- The user submits an empty new password after one mismatching round. -/
def envDecline : Env :=
  { envBase with loopResps := [some "a", some "b", some ""] }

/-- Unfolding of the collection loop on a round with a present, non-matching
confirmation (od_passwd.c lines 252-254). -/
lemma collectLoop_mismatch (s t : String) (rest : List (Option String))
    (hs : s ≠ "") (ht : t ≠ s) :
    collectLoop (some s :: some t :: rest) = mismatchCons s t (collectLoop rest) := by
  simp [collectLoop, hs, ht]

/-- Unfolding of the collection loop on a round whose confirmation prompt
got EOF (od_passwd.c line 250, `getpass` returning NULL). -/
lemma collectLoop_retypeEOF (s : String) (rest : List (Option String)) (hs : s ≠ "") :
    collectLoop (some s :: none :: rest) = contCons s (collectLoop rest) := by
  simp [collectLoop, hs]

/-- Unfolding of the collection loop on a matching confirmation
(od_passwd.c lines 255-257). -/
lemma collectLoop_matched (s : String) (rest : List (Option String)) (hs : s ≠ "") :
    collectLoop (some s :: some s :: rest) = matchedRes s s := by
  simp [collectLoop, hs]

/-- Unfolding of the collection loop on an EOF new-password response
(od_passwd.c lines 244-247). -/
lemma collectLoop_eof (rest : List (Option String)) :
    collectLoop (none :: rest) = unchangedRes := rfl

/-- Unfolding of the collection loop on an empty new-password response
(od_passwd.c lines 241, 244-247). -/
lemma collectLoop_empty (rest : List (Option String)) :
    collectLoop (some "" :: rest) = unchangedRes := by
  rcases rest with _ | ⟨_ | s, t⟩ <;> rfl

/-- A prefix of rounds on which the loop keeps going does not change the
final result of the loop. -/
lemma loopsOn_append (pre l : List (Option String)) (h : LoopsOn pre) :
    (collectLoop (pre ++ l)).result = (collectLoop l).result := by
  induction h with
  | nil => rfl
  | mismatchRound s t rest hs ht _ ih =>
    rw [List.cons_append, List.cons_append, collectLoop_mismatch s t _ hs ht]
    simpa [mismatchCons] using ih
  | retypeEOFRound s rest hs _ ih =>
    rw [List.cons_append, List.cons_append, collectLoop_retypeEOF s _ hs]
    simpa [contCons] using ih

/-- The claim-side re-authentication condition agrees with the boolean the
code computes at od_passwd.c line 223. -/
lemma specNeedsAuth_eq (uid : Nat) (loc : String) :
    specNeedsAuth uid loc = (!decide (uid = 0) || !localPrefixCheck loc) := by
  by_cases h : uid = 0 <;> by_cases h2 : loc.take 7 = "/Local/" <;>
    simp [specNeedsAuth, localPrefixCheck, h, h2]

/-- When the bootstrap falls through with a live session, its location,
error-state and daemon-load components are the claim-side values. -/
lemma sessionPhase_go_true (env : Env) (l : Option String) (e d : Bool)
    (h : sessionPhase env = .go true l e d) :
    l = suppliedOrDefault env ∧ e = tookSingleUserPath env ∧ d = tookSingleUserPath env := by
  cases h1 : env.sess1 with
  | none =>
    simp only [sessionPhase, h1] at h
    injection h with hs hl he hd
    subst hl
    subst he
    subst hd
    refine ⟨?_, ?_, ?_⟩ <;> simp [suppliedOrDefault, tookSingleUserPath, h1] <;>
      cases env.locn <;> rfl
  | some c =>
    simp only [sessionPhase, h1] at h
    by_cases hc : c = kODErrorSessionDaemonNotRunning
    · rw [if_pos hc] at h
      by_cases hsu : is_singleuser env.sysctl = 0
      · rw [if_pos hsu] at h
        simp at h
      · rw [if_neg hsu] at h
        cases hd : env.daemonLoadOk with
        | false => rw [hd] at h; simp at h
        | true =>
          rw [hd] at h
          simp only [if_true] at h
          injection h with hs hl he hdd
          subst hl
          subst he
          subst hdd
          refine ⟨?_, ?_, ?_⟩ <;>
            simp [suppliedOrDefault, tookSingleUserPath, h1, hc, hsu, hd] <;>
            cases env.locn <;> rfl
    · rw [if_neg hc] at h
      simp at h

/-- When the execution reaches the policy step, `run` is the policy phase
applied to the used location, with the stale-error and daemon-load flags
both given by the single-user path indicator. -/
lemma run_commit_eq (env : Env) (u : String) (hu : env.uname = some u)
    (hr : reachesPolicy env = true) :
    run env = policyPhase env u (env.aname.getD u) (decide (env.uid = 0))
      (usedLocation env) (tookSingleUserPath env) (tookSingleUserPath env) := by
  simp only [reachesPolicy, Bool.and_eq_true] at hr
  obtain ⟨⟨⟨-, hgo⟩, hnode⟩, hrec⟩ := hr
  unfold run
  rw [hu]
  cases hsp : sessionPhase env with
  | abort d => simp [sessionGo, hsp] at hgo
  | go s l e d =>
    have hs : s = true := by simp only [sessionGo, hsp] at hgo; exact hgo
    subst hs
    obtain ⟨hl, he, hd⟩ := sessionPhase_go_true env l e d hsp
    subst hl he hd
    simp only [hnode, hrec, Bool.and_self, Bool.true_and, if_true, commitPhase]
    cases hm : env.metaValues with
    | none => simp [usedLocation, hm]
    | some vs => cases vs <;> simp [usedLocation, hm]

/-- The policy phase on a present location records that location and the
re-authentication boolean of od_passwd.c line 223 in the trace, on every
exit path. -/
lemma policyPhase_fields (env : Env) (u an : String) (m : Bool) (loc : String) (e d : Bool) :
    (policyPhase env u an m (some loc) e d).policyLocation = some (some loc) ∧
    (policyPhase env u an m (some loc) e d).needsAuth = some (!m || !localPrefixCheck loc) := by
  cases hres : (collectLoop env.loopResps).result with
  | none => simp [policyPhase, collectCommit, hres, Trace.base]
  | some p =>
    cases hna : (!m || !localPrefixCheck loc) with
    | false => simp [policyPhase, collectCommit, hres, hna, Trace.base]
    | true =>
      cases hop : env.oldResp with
      | none => simp [policyPhase, collectCommit, hres, hna, hop, Trace.base]
      | some o => simp [policyPhase, collectCommit, hres, hna, hop, Trace.base]

/-- When the collection loop ends with no new password, the policy phase
prints `Password unchanged.`, exits with status 0 and performs no directory
mutation. -/
lemma policyPhase_result_none (env : Env) (u an : String) (m : Bool) (loc : String)
    (e d : Bool) (h : (collectLoop env.loopResps).result = none) :
    (policyPhase env u an m (some loc) e d).outcome = .exited 0 ∧
    (policyPhase env u an m (some loc) e d).printedUnchanged = true ∧
    (policyPhase env u an m (some loc) e d).setCredCalls = [] ∧
    (policyPhase env u an m (some loc) e d).changePassCalls = [] := by
  simp [policyPhase, collectCommit, h, Trace.base]

/-- Commit on the re-authentication path: one extended set-credentials call
with the four items, no change-password call, and the outcome decided by
the error state after the call. -/
lemma policyPhase_commit_auth (env : Env) (u an : String) (m : Bool) (loc : String)
    (e d : Bool) (p o : String)
    (hres : (collectLoop env.loopResps).result = some p)
    (hna : (!m || !localPrefixCheck loc) = true)
    (hop : env.oldResp = some o) :
    (policyPhase env u an m (some loc) e d).setCredCalls = [(u, p, an, some o)] ∧
    (policyPhase env u an m (some loc) e d).changePassCalls = [] ∧
    (policyPhase env u an m (some loc) e d).outcome =
      (if e || env.setCredErr then .exited 1 else .returned 0) ∧
    (policyPhase env u an m (some loc) e d).errorShown = (e || env.setCredErr) := by
  simp [policyPhase, collectCommit, hres, hna, hop, Trace.base]

/-- Commit on the privileged local path: one change-password call with a
NULL old password, no set-credentials call, and the outcome decided by the
error state after the call. -/
lemma policyPhase_commit_noauth (env : Env) (u an : String) (m : Bool) (loc : String)
    (e d : Bool) (p : String)
    (hres : (collectLoop env.loopResps).result = some p)
    (hna : (!m || !localPrefixCheck loc) = false) :
    (policyPhase env u an m (some loc) e d).changePassCalls = [(none, p)] ∧
    (policyPhase env u an m (some loc) e d).setCredCalls = [] ∧
    (policyPhase env u an m (some loc) e d).outcome =
      (if e || env.changePassErr then .exited 1 else .returned 0) ∧
    (policyPhase env u an m (some loc) e d).errorShown = (e || env.changePassErr) := by
  simp [policyPhase, collectCommit, hres, hna, Trace.base]

/-- A pre-commit failure (no live session, node creation failure, or record
not found) makes `od_passwd` return -1. -/
lemma run_prePolicy (env : Env) (u : String) (hu : env.uname = some u)
    (hr : reachesPolicy env = false) :
    (run env).outcome = .returned (-1) := by
  unfold run
  rw [hu]
  cases hsp : sessionPhase env with
  | abort d => rfl
  | go s l e d =>
    have hcond : ((s && env.nodeOk) && env.recFound) = false := by
      simp only [reachesPolicy, sessionGo, hsp, hu, Option.isSome_some, Bool.true_and] at hr
      exact hr
    simp [hcond, Trace.base]

/-- Session creation failing with daemon-not-running while the single-user
query yields 0 takes the else branch of od_passwd.c line 179: the error is
shown and -1 is returned without a daemon-load attempt. -/
lemma run_dnr_fatal (env : Env) (u : String) (hu : env.uname = some u)
    (h1 : env.sess1 = some kODErrorSessionDaemonNotRunning)
    (h2 : is_singleuser env.sysctl = 0) :
    (run env).outcome = .returned (-1) ∧ (run env).errorShown = true ∧
    (run env).daemonLoadAttempted = false ∧ (run env).nodeAttempted = false := by
  have hsp : sessionPhase env = .abort false := by
    simp [sessionPhase, h1, h2]
  unfold run
  rw [hu, hsp]
  simp [Trace.base]

/-- The single-user fallback path with a failing session retry: the bootstrap
falls through with a dead session and a set error, so node creation is still
attempted (and fails), record lookup is not, and -1 is returned. -/
lemma run_retryFail (env : Env) (u : String) (c : Int) (hu : env.uname = some u)
    (h1 : env.sess1 = some kODErrorSessionDaemonNotRunning)
    (h2 : is_singleuser env.sysctl ≠ 0)
    (h3 : env.daemonLoadOk = true)
    (h4 : env.sess2 = some c) :
    (run env).outcome = .returned (-1) ∧ (run env).errorShown = true ∧
    (run env).daemonLoadAttempted = true ∧ (run env).nodeAttempted = true ∧
    (run env).recAttempted = false := by
  have hsp : sessionPhase env = .go false (some (env.locn.getD "/Local/Default")) true true := by
    simp [sessionPhase, h1, h2, h3, h4]
  unfold run
  rw [hu, hsp]
  simp [Trace.base]

/-- The collection-and-commit phase records the policy decision and the
location it was made on, on every exit path. -/
lemma collectCommit_fields (env : Env) (u an : String) (na : Bool)
    (pl : Option String) (e d : Bool) :
    (collectCommit env u an na pl e d).policyLocation = some pl ∧
    (collectCommit env u an na pl e d).needsAuth = some na := by
  cases hres : (collectLoop env.loopResps).result with
  | none => simp [collectCommit, hres, Trace.base]
  | some p =>
    cases na with
    | false => simp [collectCommit, hres, Trace.base]
    | true =>
      cases hop : env.oldResp with
      | none => simp [collectCommit, hres, hop, Trace.base]
      | some o => simp [collectCommit, hres, hop, Trace.base]

/-- The old-password prompt is issued exactly when the policy requires
re-authentication (od_passwd.c lines 225-237). -/
lemma collectCommit_oldPrompt (env : Env) (u an : String) (na : Bool)
    (pl : Option String) (e d : Bool) :
    (collectCommit env u an na pl e d).oldPromptCount = (if na then 1 else 0) := by
  cases hres : (collectLoop env.loopResps).result with
  | none => simp [collectCommit, hres, Trace.base]
  | some p =>
    cases na with
    | false => simp [collectCommit, hres, Trace.base]
    | true =>
      cases hop : env.oldResp with
      | none => simp [collectCommit, hres, hop, Trace.base]
      | some o => simp [collectCommit, hres, hop, Trace.base]

/-- The policy phase on a missing location with a root caller: `!master_mode`
is false, so the CF comparison is evaluated on the NULL location, which the
embedding reports as undefined behaviour. -/
lemma policyPhase_none_root (env : Env) (u an : String) (e d : Bool) :
    (policyPhase env u an true none e d).policyLocation = some none ∧
    (policyPhase env u an true none e d).outcome = .crashed := by
  simp [policyPhase, Trace.base]

/-- The policy phase on a missing location with a non-root caller: the `||`
of od_passwd.c line 223 short-circuits before the CF comparison, and the
execution proceeds with the re-authentication flag set. -/
lemma policyPhase_none_nonroot (env : Env) (u an : String) (e d : Bool) :
    (policyPhase env u an false none e d).policyLocation = some none ∧
    (policyPhase env u an false none e d).needsAuth = some true := by
  have h := collectCommit_fields env u an true none e d
  simpa [policyPhase] using h

/-- The policy phase on a missing location records the missing location in
the trace whatever the caller's privilege. -/
lemma policyPhase_none_policyLocation (env : Env) (u an : String) (m e d : Bool) :
    (policyPhase env u an m none e d).policyLocation = some none := by
  cases m with
  | true => exact (policyPhase_none_root env u an e d).1
  | false => exact (policyPhase_none_nonroot env u an e d).1

/-- The old-password prompt is issued at most once in any execution: it sits
before the collection loop (od_passwd.c lines 225-237). -/
lemma run_oldPrompt_le_one (env : Env) : (run env).oldPromptCount ≤ 1 := by
  unfold run
  cases env.uname with
  | none => simp [Trace.base]
  | some u =>
    cases sessionPhase env with
    | abort d => simp [Trace.base]
    | go s l e d =>
      cases hc : (s && env.nodeOk) && env.recFound with
      | false => simp [hc, Trace.base]
      | true =>
        simp only [hc, if_true]
        unfold commitPhase policyPhase
        rcases (match env.metaValues with
          | some (v :: _) => some v
          | _ => l : Option String) with _ | loc
        · by_cases hm : env.uid = 0
          · simp [hm, Trace.base]
          · simp [hm, collectCommit_oldPrompt]
        · rw [collectCommit_oldPrompt]
          split <;> simp

/-- The location used for the trust check is missing exactly when the record
carried no canonical value and no location was supplied or defaulted. -/
lemma usedLocation_none_iff (env : Env) :
    usedLocation env = none ↔ (hasCanonical env = false ∧ suppliedOrDefault env = none) := by
  unfold usedLocation hasCanonical
  cases hm : env.metaValues with
  | none => simp
  | some vs => cases vs <;> simp

/-- Mismatching rounds accumulate: after `n` mismatches a matching round
still succeeds, with `n` mismatch messages and `n + 1` rounds of prompts. -/
lemma collectLoop_badRounds (n : Nat) :
    collectLoop (badRounds n ++ [some "a", some "a"]) =
      { result := some "a", mismatchMsgs := n, newPrompts := n + 1,
        retypePrompts := n + 1, buffers := badBufs n } := by
  induction n with
  | zero =>
    simp only [badRounds, List.nil_append]
    rw [collectLoop_matched "a" [] (by decide)]
    rfl
  | succ k ih =>
    simp only [badRounds, List.cons_append]
    rw [collectLoop_mismatch "a" "b" _ (by decide) (by decide), ih]
    simp [mismatchCons, badBufs]

/-- When a commit is reached, its outcome is exit 1 exactly when the shared
error object is set after the chosen operation: either the chosen operation
failed or a stale error from the single-user retry was still set. -/
lemma run_commit_outcome (env : Env) (p loc : String)
    (h1 : reachesPolicy env = true) (hloc : usedLocation env = some loc)
    (hres : (collectLoop env.loopResps).result = some p)
    (hold : oldOkFor env = true) :
    (run env).outcome =
      (if tookSingleUserPath env || commitErrFlag env then .exited 1 else .returned 0) := by
  obtain ⟨u, hu⟩ : ∃ u, env.uname = some u := by
    have h := h1
    simp only [reachesPolicy, Bool.and_eq_true] at h
    exact Option.isSome_iff_exists.mp h.1.1.1
  have hnaOf : needsAuthOf env = (!decide (env.uid = 0) || !localPrefixCheck loc) := by
    simp [needsAuthOf, hloc, specNeedsAuth_eq]
  rw [run_commit_eq env u hu h1, hloc]
  cases hna : (!decide (env.uid = 0) || !localPrefixCheck loc) with
  | true =>
    have hof : env.oldResp.isSome = true := by
      simpa [oldOkFor, hnaOf, hna] using hold
    obtain ⟨o, hop⟩ := Option.isSome_iff_exists.mp hof
    have h := policyPhase_commit_auth env u (env.aname.getD u) (decide (env.uid = 0)) loc
      (tookSingleUserPath env) (tookSingleUserPath env) p o hres hna hop
    rw [h.2.2.1]
    have hflag : commitErrFlag env = env.setCredErr := by
      simp [commitErrFlag, hnaOf, hna]
    rw [hflag]
  | false =>
    have h := policyPhase_commit_noauth env u (env.aname.getD u) (decide (env.uid = 0)) loc
      (tookSingleUserPath env) (tookSingleUserPath env) p hres hna
    rw [h.2.2.1]
    have hflag : commitErrFlag env = env.changePassErr := by
      simp [commitErrFlag, hnaOf, hna]
    rw [hflag]

/-- C1 (confirmed): whenever the policy step is reached with a present
location, the location used is the record's first canonical node-location
value if that attribute has at least one value and otherwise the supplied
(or single-user-defaulted) location, and the re-authentication flag is true
exactly when the caller's real uid is not root or that location does not
begin with `/Local/` in its first seven characters. -/
theorem C1_reauth_flag (env : Env) (loc : String)
    (h1 : reachesPolicy env = true) (h2 : usedLocation env = some loc) :
    (run env).policyLocation = some (some loc) ∧
    ((run env).needsAuth = some true ↔ (env.uid ≠ 0 ∨ loc.take 7 ≠ "/Local/")) := by
  obtain ⟨u, hu⟩ : ∃ u, env.uname = some u := by
    have h := h1
    simp only [reachesPolicy, Bool.and_eq_true] at h
    exact Option.isSome_iff_exists.mp h.1.1.1
  rw [run_commit_eq env u hu h1, h2]
  obtain ⟨hpl, hna⟩ := policyPhase_fields env u (env.aname.getD u) (decide (env.uid = 0))
    loc (tookSingleUserPath env) (tookSingleUserPath env)
  refine ⟨hpl, ?_⟩
  rw [hna]
  simp [localPrefixCheck]

/-- Witness for C1 at a concrete environment: root changing a password on a
record whose canonical location is `/Local/Default`. -/
theorem C1_reauth_flag_w :
    (run envBase).policyLocation = some (some "/Local/Default") ∧
    ((run envBase).needsAuth = some true ↔
      (envBase.uid ≠ 0 ∨ ("/Local/Default").take 7 ≠ "/Local/")) :=
  C1_reauth_flag envBase "/Local/Default" (by decide) (by decide)

/-- C2 (code bug): after a successful single-user fallback the stale error
object from the initial session failure is still set, so even though exactly
one change-password operation is issued and it succeeds, the final error
check fires and the process exits with status 1 instead of returning 0. -/
theorem C2_stale_error_bug :
    (run envStale).changePassCalls = [(none, "npw")] ∧
    (run envStale).setCredCalls = [] ∧
    envStale.changePassErr = false ∧
    (run envStale).outcome = .exited 1 ∧
    (run envStale).errorShown = true := by
  refine ⟨rfl, rfl, rfl, rfl, rfl⟩

/-- C3 (confirmed): an empty or EOF response to the `New password:` prompt,
at any iteration of the retry loop, prints `Password unchanged.`, exits with
status 0 and issues no directory-mutation operation. -/
theorem C3_empty_new_password (env : Env) (pre rest : List (Option String))
    (r : Option String) (hreach : reachesCollect env = true) (hpre : LoopsOn pre)
    (hr : r = none ∨ r = some "") (hresps : env.loopResps = pre ++ r :: rest) :
    (run env).outcome = .exited 0 ∧ (run env).printedUnchanged = true ∧
    (run env).setCredCalls = [] ∧ (run env).changePassCalls = [] := by
  simp only [reachesCollect, Bool.and_eq_true] at hreach
  obtain ⟨h1, hsome⟩ := hreach
  obtain ⟨loc, hloc⟩ := Option.isSome_iff_exists.mp hsome
  obtain ⟨u, hu⟩ : ∃ u, env.uname = some u := by
    have h := h1
    simp only [reachesPolicy, Bool.and_eq_true] at h
    exact Option.isSome_iff_exists.mp h.1.1.1
  have hres : (collectLoop env.loopResps).result = none := by
    rw [hresps, loopsOn_append pre _ hpre]
    rcases hr with h | h <;> subst h
    · rw [collectLoop_eof]; rfl
    · rw [collectLoop_empty]; rfl
  rw [run_commit_eq env u hu h1, hloc]
  exact policyPhase_result_none env u (env.aname.getD u) (decide (env.uid = 0)) loc
    (tookSingleUserPath env) (tookSingleUserPath env) hres

/-- Witness for C3: an empty new password after one mismatching round. -/
theorem C3_empty_new_password_w :
    (run envDecline).outcome = .exited 0 ∧ (run envDecline).printedUnchanged = true ∧
    (run envDecline).setCredCalls = [] ∧ (run envDecline).changePassCalls = [] :=
  C3_empty_new_password envDecline [some "a", some "b"] [] (some "")
    (by decide)
    (LoopsOn.mismatchRound "a" "b" [] (by decide) (by decide) LoopsOn.nil)
    (Or.inr rfl) rfl

/-- C4 (confirmed): a present non-matching confirmation prints one mismatch
message and restarts both prompts without exiting; an EOF confirmation
restarts silently; the loop ends on a matching confirmation or on an
empty/EOF new-password response; the old password prompt happens at most
once per execution; and there is no maximum retry count: after any number n
of mismatching rounds a match still succeeds, having printed n mismatch
messages. -/
theorem C4_confirmation_loop :
    (∀ s t rest, s ≠ "" → t ≠ s →
      collectLoop (some s :: some t :: rest) = mismatchCons s t (collectLoop rest)) ∧
    (∀ s rest, s ≠ "" →
      collectLoop (some s :: none :: rest) = contCons s (collectLoop rest)) ∧
    (∀ s rest, s ≠ "" → collectLoop (some s :: some s :: rest) = matchedRes s s) ∧
    (∀ rest, (collectLoop (none :: rest)).result = none ∧
      (collectLoop (some "" :: rest)).result = none) ∧
    (∀ env, (run env).oldPromptCount ≤ 1) ∧
    (∀ n, collectLoop (badRounds n ++ [some "a", some "a"]) =
      { result := some "a", mismatchMsgs := n, newPrompts := n + 1,
        retypePrompts := n + 1, buffers := badBufs n }) := by
  refine ⟨collectLoop_mismatch, collectLoop_retypeEOF, collectLoop_matched, ?_,
    run_oldPrompt_le_one, collectLoop_badRounds⟩
  intro rest
  exact ⟨by rw [collectLoop_eof]; rfl, by rw [collectLoop_empty]; rfl⟩

/-- Witness for C4: one mismatching round on concrete responses. -/
theorem C4_confirmation_loop_w :
    collectLoop [some "a", some "b"] = mismatchCons "a" "b" (collectLoop []) :=
  C4_confirmation_loop.1 "a" "b" [] (by decide) (by decide)

/-- Counterexample to C5 as stated: when the single-user retry fails, node
resolution is still attempted (with the dead session), contradicting the
claim that the program aborts without attempting node resolution. -/
theorem C5_cex :
    envRetryFail.sess1 = some kODErrorSessionDaemonNotRunning ∧
    is_singleuser envRetryFail.sysctl ≠ 0 ∧
    envRetryFail.daemonLoadOk = true ∧
    envRetryFail.sess2 = some 1002 ∧
    (run envRetryFail).nodeAttempted = true := by
  refine ⟨rfl, by decide, rfl, rfl, rfl⟩

/-- C5 (amended): when the single-user retry fails, the error is reported
and the program returns -1, but node creation is attempted against the dead
session first (record lookup is not attempted). -/
theorem C5_retry_fail_amended (env : Env) (u : String) (c : Int)
    (hu : env.uname = some u)
    (h1 : env.sess1 = some kODErrorSessionDaemonNotRunning)
    (h2 : is_singleuser env.sysctl ≠ 0)
    (h3 : env.daemonLoadOk = true)
    (h4 : env.sess2 = some c) :
    (run env).outcome = .returned (-1) ∧ (run env).errorShown = true ∧
    (run env).daemonLoadAttempted = true ∧ (run env).nodeAttempted = true ∧
    (run env).recAttempted = false :=
  run_retryFail env u c hu h1 h2 h3 h4

/-- Witness for the amended C5 at a concrete environment. -/
theorem C5_retry_fail_amended_w :
    (run envRetryFail).outcome = .returned (-1) ∧ (run envRetryFail).errorShown = true ∧
    (run envRetryFail).daemonLoadAttempted = true ∧
    (run envRetryFail).nodeAttempted = true ∧
    (run envRetryFail).recAttempted = false :=
  C5_retry_fail_amended envRetryFail "alice" 1002 rfl rfl (by decide) rfl rfl

/-- Counterexample to C6 as stated: daemon-not-running while not in
single-user mode makes `od_passwd` return -1; it does not exit with
status 1 (no `exit` call happens on this path). -/
theorem C6_cex :
    envNoSingle.sess1 = some kODErrorSessionDaemonNotRunning ∧
    is_singleuser envNoSingle.sysctl = 0 ∧
    (run envNoSingle).daemonLoadAttempted = false ∧
    (run envNoSingle).outcome = .returned (-1) ∧
    (run envNoSingle).outcome ≠ .exited 1 := by
  refine ⟨rfl, rfl, rfl, rfl, by decide⟩

/-- C6 (amended): daemon-not-running while not in single-user mode reports
the error and returns -1 (a failure the caller must translate), and the
daemon-load child process is never attempted. -/
theorem C6_no_singleuser_amended (env : Env) (u : String)
    (hu : env.uname = some u)
    (h1 : env.sess1 = some kODErrorSessionDaemonNotRunning)
    (h2 : is_singleuser env.sysctl = 0) :
    (run env).outcome = .returned (-1) ∧ (run env).daemonLoadAttempted = false ∧
    (run env).errorShown = true := by
  have h := run_dnr_fatal env u hu h1 h2
  exact ⟨h.1, h.2.2.1, h.2.1⟩

/-- Witness for the amended C6 at a concrete environment. -/
theorem C6_no_singleuser_amended_w :
    (run envNoSingle).outcome = .returned (-1) ∧
    (run envNoSingle).daemonLoadAttempted = false ∧
    (run envNoSingle).errorShown = true :=
  C6_no_singleuser_amended envNoSingle "alice" rfl rfl rfl

/-- Counterexample to C7 as stated: a directory-service error during session
creation (with a username supplied) makes `od_passwd` return -1, not 1, so
neither 1-on-any-directory-error nor -1-only-for-missing-username holds. -/
theorem C7_cex :
    envOtherErr.uname = some "alice" ∧
    (run envOtherErr).errorShown = true ∧
    (run envOtherErr).outcome = .returned (-1) ∧
    (run envOtherErr).outcome ≠ .exited 1 := by
  refine ⟨rfl, rfl, rfl, by decide⟩

/-- C7 (amended): the result codes are 0 returned on a successful commit
with no stale error, exit status 0 on a user-declined change, exit status 1
on a commit-step error, and -1 both when no username is supplied and on any
pre-commit directory-service or daemon-load failure. -/
theorem C7_result_codes_amended :
    (∀ env, env.uname = none → (run env).outcome = .returned (-1)) ∧
    (∀ env u, env.uname = some u → reachesPolicy env = false →
      (run env).outcome = .returned (-1)) ∧
    (∀ env, reachesCollect env = true → (collectLoop env.loopResps).result = none →
      (run env).outcome = .exited 0) ∧
    (∀ env p, reachesCollect env = true → (collectLoop env.loopResps).result = some p →
      oldOkFor env = true → commitErrFlag env = true → (run env).outcome = .exited 1) ∧
    (∀ env p, reachesCollect env = true → (collectLoop env.loopResps).result = some p →
      oldOkFor env = true → commitErrFlag env = false → tookSingleUserPath env = false →
      (run env).outcome = .returned 0) := by
  refine ⟨?_, ?_, ?_, ?_, ?_⟩
  · intro env h
    unfold run
    rw [h]
    rfl
  · intro env u hu hr
    exact run_prePolicy env u hu hr
  · intro env hreach hres
    simp only [reachesCollect, Bool.and_eq_true] at hreach
    obtain ⟨h1, hsome⟩ := hreach
    obtain ⟨loc, hloc⟩ := Option.isSome_iff_exists.mp hsome
    obtain ⟨u, hu⟩ : ∃ u, env.uname = some u := by
      have h := h1
      simp only [reachesPolicy, Bool.and_eq_true] at h
      exact Option.isSome_iff_exists.mp h.1.1.1
    rw [run_commit_eq env u hu h1, hloc]
    exact (policyPhase_result_none env u (env.aname.getD u) (decide (env.uid = 0)) loc
      (tookSingleUserPath env) (tookSingleUserPath env) hres).1
  · intro env p hreach hres hold hflag
    simp only [reachesCollect, Bool.and_eq_true] at hreach
    obtain ⟨h1, hsome⟩ := hreach
    obtain ⟨loc, hloc⟩ := Option.isSome_iff_exists.mp hsome
    rw [run_commit_outcome env p loc h1 hloc hres hold, hflag]
    simp
  · intro env p hreach hres hold hflag htook
    simp only [reachesCollect, Bool.and_eq_true] at hreach
    obtain ⟨h1, hsome⟩ := hreach
    obtain ⟨loc, hloc⟩ := Option.isSome_iff_exists.mp hsome
    rw [run_commit_outcome env p loc h1 hloc hres hold, hflag, htook]
    simp

/-- Witness for the amended C7: the missing-username clause at a concrete
environment. -/
theorem C7_result_codes_amended_w :
    (run envNoUser).outcome = .returned (-1) :=
  C7_result_codes_amended.1 envNoUser rfl

/-- C8 (code bug): the confirmation buffer returned by `getpass` is
converted into a `CFString` but never zeroed (od_passwd.c lines 249-259
have no `memset`), while the old and new password buffers are zeroed; the
execution below records the confirmation buffer with a false zeroed flag. -/
theorem C8_unzeroed_confirmation :
    (run envNonRoot).buffers = [("old", true), ("npw", true), ("npw", false)] ∧
    ("npw", false) ∈ (run envNonRoot).buffers := by
  refine ⟨rfl, by decide⟩

/-- Counterexample to C9 as stated: with no supplied location, no
single-user defaulting and an empty canonical-location attribute, the
policy step is reached with a missing location and the prefix comparison is
applied to it (undefined behaviour). -/
theorem C9_cex :
    reachesPolicy envNoLoc = true ∧ envNoLoc.locn = none ∧
    (run envNoLoc).policyLocation = some none ∧
    (run envNoLoc).outcome = .crashed := by
  refine ⟨rfl, rfl, rfl, rfl⟩

/-- C9 (amended): the location compared at the trust check is present
exactly when the record carried at least one canonical node-location value
or a supplied/single-user-defaulted location exists; when it is missing,
the short-circuiting `||` of line 223 means a root caller applies the
prefix comparison to the missing (NULL) location (undefined behaviour),
while a non-root caller skips the comparison and proceeds with the
re-authentication flag set. -/
theorem C9_location_presence (env : Env) (h1 : reachesPolicy env = true) :
    (run env).policyLocation = some (usedLocation env) ∧
    (usedLocation env).isSome = (hasCanonical env || (suppliedOrDefault env).isSome) ∧
    (usedLocation env = none → env.uid = 0 → (run env).outcome = .crashed) ∧
    (usedLocation env = none → env.uid ≠ 0 → (run env).needsAuth = some true) := by
  obtain ⟨u, hu⟩ : ∃ u, env.uname = some u := by
    have h := h1
    simp only [reachesPolicy, Bool.and_eq_true] at h
    exact Option.isSome_iff_exists.mp h.1.1.1
  have hiff : (usedLocation env).isSome = (hasCanonical env || (suppliedOrDefault env).isSome) := by
    unfold usedLocation hasCanonical
    cases env.metaValues with
    | none => simp
    | some vs => cases vs <;> simp
  rw [run_commit_eq env u hu h1]
  cases hloc : usedLocation env with
  | none =>
    rw [hloc] at hiff
    refine ⟨policyPhase_none_policyLocation env u (env.aname.getD u) (decide (env.uid = 0))
      (tookSingleUserPath env) (tookSingleUserPath env), hiff, ?_, ?_⟩
    · intro _ huid
      have hm : decide (env.uid = 0) = true := by simp [huid]
      rw [hm]
      exact (policyPhase_none_root env u (env.aname.getD u)
        (tookSingleUserPath env) (tookSingleUserPath env)).2
    · intro _ huid
      have hm : decide (env.uid = 0) = false := by simp [huid]
      rw [hm]
      exact (policyPhase_none_nonroot env u (env.aname.getD u)
        (tookSingleUserPath env) (tookSingleUserPath env)).2
  | some loc =>
    rw [hloc] at hiff
    refine ⟨(policyPhase_fields env u (env.aname.getD u) (decide (env.uid = 0)) loc
      (tookSingleUserPath env) (tookSingleUserPath env)).1, hiff,
      fun hcontra _ => absurd hcontra (by simp),
      fun hcontra _ => absurd hcontra (by simp)⟩

/-- Witness for the amended C9 at a concrete environment. -/
theorem C9_location_presence_w :
    (run envBase).policyLocation = some (usedLocation envBase) ∧
    (usedLocation envBase).isSome =
      (hasCanonical envBase || (suppliedOrDefault envBase).isSome) ∧
    (usedLocation envBase = none → envBase.uid = 0 → (run envBase).outcome = .crashed) ∧
    (usedLocation envBase = none → envBase.uid ≠ 0 → (run envBase).needsAuth = some true) :=
  C9_location_presence envBase (by decide)

/-- C10 (confirmed): when the sysctl query for the single-user flag fails,
`is_singleuser` returns 0, so no daemon bootstrap is attempted and the
daemon-not-running error becomes fatal (error shown, -1 returned). -/
theorem C10_sysctl_fail (env : Env) (u : String)
    (hu : env.uname = some u) (hq : env.sysctl = none)
    (h1 : env.sess1 = some kODErrorSessionDaemonNotRunning) :
    is_singleuser env.sysctl = 0 ∧
    (run env).daemonLoadAttempted = false ∧
    (run env).outcome = .returned (-1) ∧
    (run env).errorShown = true := by
  have h2 : is_singleuser env.sysctl = 0 := by rw [hq]; rfl
  have h := run_dnr_fatal env u hu h1 h2
  exact ⟨h2, h.2.2.1, h.1, h.2.1⟩

/-- Witness for C10 at a concrete environment. -/
theorem C10_sysctl_fail_w :
    is_singleuser envSysctlFail.sysctl = 0 ∧
    (run envSysctlFail).daemonLoadAttempted = false ∧
    (run envSysctlFail).outcome = .returned (-1) ∧
    (run envSysctlFail).errorShown = true :=
  C10_sysctl_fail envSysctlFail "alice" rfl rfl rfl

end ODPasswd
